import Mathlib

/-!
Verification development for the screenshot-chat desktop utility
(Go sources: app.go, screenshot_darwin.go, screenshot_linux.go,
screenshot_windows.go).

The Go functions are shallowly embedded as pure Lean functions.
External effects (file reads, HTTP calls, JSON parsing of incoming
bodies, subprocess execution) are supplied by explicit environment
records, so that each Go function becomes a total function from its
environment and arguments to its result, together with — where a claim
needs it — a trace of the side effects it performed.
-/

/-! ### Byte-level helpers: Go's base64.StdEncoding.EncodeToString -/

/-- The standard base64 alphabet, as used by Go's base64.StdEncoding. -/
def b64Alphabet : List Char :=
  "ABCDEFGHIJKLMNOPQRSTUVWXYZabcdefghijklmnopqrstuvwxyz0123456789+/".data

/-- The base64 digit character for a 6-bit value. -/
def b64c (n : Nat) : Char := b64Alphabet.getD n 'A'

/-- Standard base64 encoding of a byte list (bytes as Nat < 256), with
trailing-group padding by the character =, exactly as Go's
base64.StdEncoding.EncodeToString produces. -/
def base64Chunks : List Nat → List Char
  | [] => []
  | [b0] =>
      [b64c (b0 >>> 2), b64c ((b0 &&& 3) <<< 4), '=', '=']
  | [b0, b1] =>
      [b64c (b0 >>> 2), b64c (((b0 &&& 3) <<< 4) ||| (b1 >>> 4)),
       b64c ((b1 &&& 15) <<< 2), '=']
  | b0 :: b1 :: b2 :: rest =>
      b64c (b0 >>> 2) :: b64c (((b0 &&& 3) <<< 4) ||| (b1 >>> 4)) ::
      b64c (((b1 &&& 15) <<< 2) ||| (b2 >>> 6)) :: b64c (b2 &&& 63) ::
      base64Chunks rest

/-- Go base64.StdEncoding.EncodeToString on a byte list. -/
def base64Encode (data : List Nat) : String := ⟨base64Chunks data⟩

/-! ### String helpers mirroring Go's strings / path/filepath packages -/

/-- Go strings.Contains: true when the second argument occurs as a
contiguous substring of the first. Implemented by scanning every
suffix of the haystack for the needle as a leading segment. -/
def strContains (s sub : String) : Bool :=
  go s.data sub.data
where
  go : List Char → List Char → Bool
    | l, needle =>
      List.isPrefixOf needle l ||
        match l with
        | [] => false
        | _ :: rest => go rest needle

/-- Helper for filepathExt: scans the reversed character list of a file
name, accumulating characters until the last dot of the original name
(returning the extension including the dot) or until a path separator
or the start of the name (returning none). -/
def extRev : List Char → List Char → Option (List Char)
  | _, [] => none
  | acc, c :: rest =>
      if c = '.' then some ('.' :: acc)
      else if c = '/' then none
      else extRev (c :: acc) rest

/-- Go path/filepath.Ext: the suffix of the name beginning at the final
dot of its last path element, or the empty string when that element has
no dot. -/
def filepathExt (name : String) : String :=
  match extRev [] name.data.reverse with
  | some cs => ⟨cs⟩
  | none => ""

/-- Go strings.HasPrefix(s, pre): pre is a leading segment of s. On
UTF-8 strings Go's byte-level prefix test coincides with this
character-level one. -/
def hasPrefixStr (s pre : String) : Bool :=
  List.isPrefixOf pre.data s.data

/-! ### Ollama API types (app.go) -/

/-- Go struct OllamaMessage: one chat message of the request payload. -/
structure OllamaMessage where
  role : String
  content : String
  images : List String
  deriving Repr, DecidableEq

/-- Go struct OllamaChatRequest: the body POSTed to /api/chat. -/
structure OllamaChatRequest where
  model : String
  messages : List OllamaMessage
  stream : Bool
  deriving Repr, DecidableEq

/-- Message part of Go struct OllamaChatResponse. -/
structure OllamaRespMessage where
  role : String := ""
  content : String := ""
  thinking : String := ""
  deriving Repr, DecidableEq

/-- Go struct OllamaChatResponse: the parsed /api/chat response body. -/
structure OllamaChatResponse where
  model : String := ""
  message : OllamaRespMessage := {}
  done : Bool := false
  doneReason : String := ""
  deriving Repr, DecidableEq

/-- Go struct AnalysisResult (app.go). The Duration field (wall-clock
seconds, an IO measurement) is outside the pure embedding and omitted;
Go's zero values stand in for absent fields. -/
structure AnalysisResult where
  content : String := ""
  thinking : String := ""
  success : Bool
  error : String := ""
  deriving Repr, DecidableEq

/-! ### VisionClient: AnalyzeScreenshot (app.go) -/

/-- One HTTP response as seen by AnalyzeScreenshot: the status code and
the outcome of reading the body (io.ReadAll can itself fail). -/
structure HttpResp where
  status : Nat
  bodyRead : Except String String

/-- Environment of one AnalyzeScreenshot call: the outcome of
os.ReadFile on the image path (error text or the file's bytes), the
outcome of the HTTP POST (error text or a response), and the JSON
unmarshalling of a response body into OllamaChatResponse. -/
structure AnalyzeEnv where
  fileContent : Except String (List Nat)
  postResult : Except String HttpResp
  parse : String → Except String OllamaChatResponse

/-- The fixed default prompt substituted for an empty prompt. -/
def defaultPrompt : String := "Describe what you see in this screenshot in detail."

/-- The fixed model identifier of the request payload. -/
def ollamaModel : String := "qwen3-vl:8b"

/-- Go method AnalyzeScreenshot (app.go): reads the image, base64-encodes
it, substitutes the default prompt for an empty one, builds the chat
request, POSTs it and interprets the response. Returns the result
together with the request body that was sent (none when the call failed
before the POST). json.Marshal of OllamaChatRequest cannot fail on this
field set, so the marshal-error branch is unreachable and not modelled. -/
def analyzeScreenshot (env : AnalyzeEnv) (prompt : String) :
    AnalysisResult × Option OllamaChatRequest :=
  match env.fileContent with
  | .error e =>
      ({ success := false, error := "Failed to read image: " ++ e }, none)
  | .ok imageData =>
      let base64Image := base64Encode imageData
      let prompt := if prompt = "" then defaultPrompt else prompt
      let reqBody : OllamaChatRequest :=
        { model := ollamaModel
          messages := [{ role := "user", content := prompt, images := [base64Image] }]
          stream := false }
      match env.postResult with
      | .error e =>
          ({ success := false, error := "Ollama request failed: " ++ e }, some reqBody)
      | .ok resp =>
          match resp.bodyRead with
          | .error e =>
              ({ success := false, error := "Failed to read response: " ++ e }, some reqBody)
          | .ok body =>
              if resp.status ≠ 200 then
                ({ success := false,
                   error := "Ollama returned status " ++ toString resp.status ++ ": " ++ body },
                 some reqBody)
              else
                match env.parse body with
                | .error e =>
                    ({ success := false, error := "Failed to parse response: " ++ e }, some reqBody)
                | .ok ollamaResp =>
                    ({ content := ollamaResp.message.content
                       thinking := ollamaResp.message.thinking
                       success := true }, some reqBody)

/-! ### StatusProbe: CheckOllamaStatus (app.go) -/

/-- One entry of the parsed GET /api/tags response body. -/
structure TagsModelEntry where
  name : String
  deriving Repr, DecidableEq

/-- The parsed GET /api/tags response body. -/
structure TagsResp where
  models : List TagsModelEntry
  deriving Repr, DecidableEq

/-- The result map of CheckOllamaStatus, with its keys available,
modelLoaded and (optional) error made into typed fields. -/
structure OllamaStatus where
  available : Bool
  modelLoaded : Bool
  error : Option String := none
  deriving Repr, DecidableEq

/-- Environment of one CheckOllamaStatus call: the outcome of the GET
to /api/tags (error text, or the body that io.ReadAll produced — the
code discards both the status code and any body-read error here), and
the JSON unmarshalling of that body (none = unmarshal error). -/
structure TagsEnv where
  getResult : Except String String
  parse : String → Option TagsResp

/-- Go method CheckOllamaStatus (app.go): starts from
available=false, modelLoaded=false; on connection failure records the
error "Ollama is not running" and returns; otherwise marks available
and, when the body unmarshals, sets modelLoaded when some model name
contains the substring qwen3-vl. -/
def checkOllamaStatus (env : TagsEnv) : OllamaStatus :=
  match env.getResult with
  | .error _ =>
      { available := false, modelLoaded := false, error := some "Ollama is not running" }
  | .ok body =>
      match env.parse body with
      | none => { available := true, modelLoaded := false }
      | some tagsResp =>
          { available := true
            modelLoaded := tagsResp.models.any (fun m => strContains m.name "qwen3-vl") }

/-! ### Gallery/Store: DeleteScreenshot, GetScreenshots, GetScreenshotBase64 -/

/-- Go struct ScreenshotResult (app.go); Go zero values stand in for
absent fields. -/
structure ScreenshotResult where
  filePath : String := ""
  fileName : String := ""
  success : Bool
  error : String := ""
  deriving Repr, DecidableEq

/-- Go method DeleteScreenshot (app.go), on a filesystem modelled as the
list of absolute paths of existing files. The argument is the resolved
absolute path (the output of filepath.Abs, assumed to have succeeded:
its only failure mode is an unreadable working directory, and on an
absolute input it is path cleaning). The validation is Go's
strings.HasPrefix(absPath, screenshotDir); on validation failure the
filesystem is returned unchanged, otherwise os.Remove is attempted.
Returns the result and the filesystem after the call. -/
def deleteScreenshot (screenshotDir : String) (fs : List String) (absPath : String) :
    ScreenshotResult × List String :=
  if ¬ hasPrefixStr absPath screenshotDir then
    ({ success := false, error := "Invalid file path" }, fs)
  else if absPath ∈ fs then
    ({ success := true, filePath := absPath }, fs.erase absPath)
  else
    ({ success := false, error := "Failed to delete: file does not exist" }, fs)

/-- Containment of a path in a directory in the sense of the claim:
the path is inside the directory exactly when the directory followed by
a path separator is a leading segment of it (the directory itself is
not a deletable file inside itself but is included for completeness). -/
def isWithinDir (dir p : String) : Prop :=
  p = dir ∨ hasPrefixStr p (dir ++ "/") = true

instance (dir p : String) : Decidable (isWithinDir dir p) := by
  unfold isWithinDir; infer_instance

/-- One entry of os.ReadDir on the screenshot directory, carrying the
data GetScreenshots reads from it; modTime is the RFC3339-formatted
modification time exactly as info.ModTime().Format(time.RFC3339)
yields it (timestamps of one process share one UTC offset, under which
lexicographic order on these fixed-width strings is chronological
order). The entry.Info() error branch — an OS race in which a listed
file vanishes before stat — is not representable here: entries carry
their info. -/
structure DirEntry where
  name : String
  isDir : Bool
  size : Int
  modTime : String
  deriving Repr, DecidableEq

/-- Go struct ScreenshotInfo (app.go). -/
structure ScreenshotInfo where
  fileName : String
  filePath : String
  size : Int
  modTime : String
  deriving Repr, DecidableEq

/-- The filter of GetScreenshots: keep non-directory entries whose
extension, lowercased, is .png, .jpg or .jpeg. -/
def isScreenshotEntry (e : DirEntry) : Bool :=
  !e.isDir &&
    (let ext := (filepathExt e.name).toLower
     ext = ".png" || ext = ".jpg" || ext = ".jpeg")

/-- The ScreenshotInfo built from a directory entry (filepath.Join of a
clean directory and a bare file name is their slash-concatenation). -/
def toScreenshotInfo (screenshotDir : String) (e : DirEntry) : ScreenshotInfo :=
  { fileName := e.name
    filePath := screenshotDir ++ "/" ++ e.name
    size := e.size
    modTime := e.modTime }

/-- Go method GetScreenshots (app.go): filters the directory entries to
screenshot files and sorts newest-first, i.e. by descending ModTime
string — Go's sort.Slice with less(i,j) = ModTime i > ModTime j leaves
any order sorted under that comparator, which mergeSort with the
complementary le realises. On a ReadDir error the code returns the
empty (nil) list; here entries are given, so that branch is the empty
entry list. -/
def getScreenshots (screenshotDir : String) (entries : List DirEntry) :
    List ScreenshotInfo :=
  ((entries.filter isScreenshotEntry).map (toScreenshotInfo screenshotDir)).mergeSort
    (fun a b => decide (b.modTime ≤ a.modTime))

/-- Go method GetScreenshotBase64 (app.go): the environment supplies the
outcome of os.ReadFile (none = read error). On a read error returns the
empty string; otherwise returns a data URI whose MIME type is
image/jpeg for a lowercased extension .jpg or .jpeg and image/png
otherwise, followed by the base64 encoding of the bytes. -/
def getScreenshotBase64 (fileContent : Option (List Nat)) (filePath : String) : String :=
  match fileContent with
  | none => ""
  | some data =>
      let ext := (filepathExt filePath).toLower
      let mimeType := if ext = ".jpg" || ext = ".jpeg" then "image/jpeg" else "image/png"
      "data:" ++ mimeType ++ ";base64," ++ base64Encode data

/-! ### CaptureBackend: captureScreenshot per platform -/

/-- One subprocess invocation (exec.Command name args + CombinedOutput). -/
inductive ExtCall where
  | exec (name : String) (args : List String)
  deriving Repr, DecidableEq

/-- Outcome of running one subprocess: its combined output and its
error (none = exit status 0). -/
structure ExecOutcome where
  output : String
  err : Option String

/-- Result of one captureScreenshot call: the subprocess invocations it
performed in order, the hideWindow return value, and the error return
value (none = success). -/
structure BackendResult where
  calls : List ExtCall
  hideWindow : Bool
  err : Option String

/-- Go's %q verb on a string: wraps in double quotes, escaping as Go
does; mode strings free of quotes, backslashes and control characters
need no escapes, so plain quote-wrapping is what is modelled. -/
def goQuote (s : String) : String := "\"" ++ s ++ "\""

/-- The error message every backend's default branch produces via
fmt.Errorf for an unknown mode. -/
def invalidModeMsg (mode : String) : String :=
  "invalid mode " ++ goQuote mode ++ ": use full, selection, or focused"

/-- Go function captureScreenshot (screenshot_darwin.go): drives the
macOS screencapture command; ex supplies each invocation's
CombinedOutput outcome. -/
def captureDarwin (ex : ExtCall → ExecOutcome) (mode savePath : String) : BackendResult :=
  if mode = "full" then
    let c := ExtCall.exec "screencapture" ["-x", savePath]
    let o := ex c
    { calls := [c], hideWindow := true
      err := o.err.map (fun e => "screencapture failed: " ++ e ++ " - " ++ o.output) }
  else if mode = "selection" then
    let c := ExtCall.exec "screencapture" ["-i", "-x", savePath]
    let o := ex c
    { calls := [c], hideWindow := false
      err := o.err.map (fun e => "screencapture failed: " ++ e ++ " - " ++ o.output) }
  else if mode = "focused" then
    let c := ExtCall.exec "screencapture" ["-w", "-x", savePath]
    let o := ex c
    { calls := [c], hideWindow := false
      err := o.err.map (fun e => "screencapture failed: " ++ e ++ " - " ++ o.output) }
  else
    { calls := [], hideWindow := false, err := some (invalidModeMsg mode) }

/-- Go function captureScreenshot (screenshot_linux.go): drives scrot;
the default branch returns before any command is built. -/
def captureLinux (ex : ExtCall → ExecOutcome) (mode savePath : String) : BackendResult :=
  if mode = "full" then
    runScrot ex ["--silent", "--overwrite", savePath] true
  else if mode = "selection" then
    runScrot ex ["--select", "--freeze", "--silent", "--overwrite", savePath] false
  else if mode = "focused" then
    runScrot ex ["--focused", "--silent", "--overwrite", savePath] true
  else
    { calls := [], hideWindow := false, err := some (invalidModeMsg mode) }
where
  runScrot (ex : ExtCall → ExecOutcome) (args : List String) (hide : Bool) : BackendResult :=
    let c := ExtCall.exec "scrot" args
    let o := ex c
    { calls := [c], hideWindow := hide
      err := o.err.map (fun e => "scrot failed: " ++ e ++ " - " ++ o.output) }

/-- The PowerShell script of the Windows full-screen capture. -/
def windowsFullScript (savePath : String) : String :=
  "\nAdd-Type -AssemblyName System.Windows.Forms\n" ++
  "Add-Type -AssemblyName System.Drawing\n" ++
  "$screens = [System.Windows.Forms.Screen]::AllScreens\n" ++
  "$minX = ($screens | ForEach-Object \x7b $_.Bounds.X \x7d | Measure-Object -Minimum).Minimum\n" ++
  "$minY = ($screens | ForEach-Object \x7b $_.Bounds.Y \x7d | Measure-Object -Minimum).Minimum\n" ++
  "$maxX = ($screens | ForEach-Object \x7b $_.Bounds.X + $_.Bounds.Width \x7d | Measure-Object -Maximum).Maximum\n" ++
  "$maxY = ($screens | ForEach-Object \x7b $_.Bounds.Y + $_.Bounds.Height \x7d | Measure-Object -Maximum).Maximum\n" ++
  "$totalWidth = $maxX - $minX\n" ++
  "$totalHeight = $maxY - $minY\n" ++
  "$bitmap = New-Object System.Drawing.Bitmap($totalWidth, $totalHeight)\n" ++
  "$graphics = [System.Drawing.Graphics]::FromImage($bitmap)\n" ++
  "$graphics.CopyFromScreen($minX, $minY, 0, 0, $bitmap.Size)\n" ++
  "$bitmap.Save(\x27" ++ savePath ++ "\x27, [System.Drawing.Imaging.ImageFormat]::Png)\n" ++
  "$graphics.Dispose()\n" ++
  "$bitmap.Dispose()\n"

/-- The PowerShell script of the Windows selection capture (documented
fallback: captures the primary screen). -/
def windowsSelectionScript (savePath : String) : String :=
  "\nAdd-Type -AssemblyName System.Windows.Forms\n" ++
  "Add-Type -AssemblyName System.Drawing\n" ++
  "$screen = [System.Windows.Forms.Screen]::PrimaryScreen\n" ++
  "$bitmap = New-Object System.Drawing.Bitmap($screen.Bounds.Width, $screen.Bounds.Height)\n" ++
  "$graphics = [System.Drawing.Graphics]::FromImage($bitmap)\n" ++
  "$graphics.CopyFromScreen($screen.Bounds.Location, [System.Drawing.Point]::Empty, $screen.Bounds.Size)\n" ++
  "$bitmap.Save(\x27" ++ savePath ++ "\x27, [System.Drawing.Imaging.ImageFormat]::Png)\n" ++
  "$graphics.Dispose()\n" ++
  "$bitmap.Dispose()\n"

/-- The PowerShell script of the Windows focused-window capture. -/
def windowsFocusedScript (savePath : String) : String :=
  "\nAdd-Type -AssemblyName System.Windows.Forms\n" ++
  "Add-Type -AssemblyName System.Drawing\n" ++
  "Add-Type @\"\n" ++
  "using System;\n" ++
  "using System.Runtime.InteropServices;\n" ++
  "public class Win32 \x7b\n" ++
  "    [DllImport(\"user32.dll\")]\n" ++
  "    public static extern IntPtr GetForegroundWindow();\n" ++
  "    [DllImport(\"user32.dll\")]\n" ++
  "    [return: MarshalAs(UnmanagedType.Bool)]\n" ++
  "    public static extern bool GetWindowRect(IntPtr hWnd, out RECT lpRect);\n" ++
  "\x7d\n" ++
  "[StructLayout(LayoutKind.Sequential)]\n" ++
  "public struct RECT \x7b\n" ++
  "    public int Left;\n" ++
  "    public int Top;\n" ++
  "    public int Right;\n" ++
  "    public int Bottom;\n" ++
  "\x7d\n" ++
  "\"@\n" ++
  "$hwnd = [Win32]::GetForegroundWindow()\n" ++
  "$rect = New-Object RECT\n" ++
  "[Win32]::GetWindowRect($hwnd, [ref]$rect) | Out-Null\n" ++
  "$width = $rect.Right - $rect.Left\n" ++
  "$height = $rect.Bottom - $rect.Top\n" ++
  "$bitmap = New-Object System.Drawing.Bitmap($width, $height)\n" ++
  "$graphics = [System.Drawing.Graphics]::FromImage($bitmap)\n" ++
  "$graphics.CopyFromScreen($rect.Left, $rect.Top, 0, 0, $bitmap.Size)\n" ++
  "$bitmap.Save(\x27" ++ savePath ++ "\x27, [System.Drawing.Imaging.ImageFormat]::Png)\n" ++
  "$graphics.Dispose()\n" ++
  "$bitmap.Dispose()\n"

/-- Go function captureScreenshot (screenshot_windows.go): all three
valid modes set hideWindow=true, pick a PowerShell script and run it;
the default branch of the first switch returns before the script
switch and before any invocation. -/
def captureWindows (ex : ExtCall → ExecOutcome) (mode savePath : String) : BackendResult :=
  if mode = "full" ∨ mode = "selection" ∨ mode = "focused" then
    let psScript :=
      if mode = "full" then windowsFullScript savePath
      else if mode = "selection" then windowsSelectionScript savePath
      else windowsFocusedScript savePath
    let c := ExtCall.exec "powershell" ["-NoProfile", "-NonInteractive", "-Command", psScript]
    let o := ex c
    { calls := [c], hideWindow := true
      err := o.err.map (fun e => "screenshot capture failed: " ++ e ++ " - " ++ o.output) }
  else
    { calls := [], hideWindow := false, err := some (invalidModeMsg mode) }

/-! ### CaptureCoordinator: TakeScreenshot (app.go) -/

/-- One observable step of TakeScreenshot, in order: the window-hide and
window-show runtime side effects, the sleeps, entry into
captureScreenshot, and the subprocess calls captureScreenshot makes. -/
inductive CaptureEvent where
  | windowHide
  | windowShow
  | sleepMs (ms : Nat)
  | backendInvoke
  | extCall (c : ExtCall)
  deriving Repr, DecidableEq

/-- Go method TakeScreenshot (app.go): builds the timestamped filename,
decides hideWindow purely from the mode, hides the window and sleeps
500ms when required, invokes the platform captureScreenshot (whose
hideWindow return value is discarded), and when it hid the window
sleeps 100ms and shows it again before inspecting the error. Returns
the ordered event trace and the ScreenshotResult. -/
def takeScreenshot (backend : String → String → BackendResult)
    (screenshotDir timestamp mode : String) : List CaptureEvent × ScreenshotResult :=
  let filename := "screenshot_" ++ timestamp ++ "_" ++ mode ++ ".png"
  let savePath := screenshotDir ++ "/" ++ filename
  let hideWindow := mode == "full" || mode == "focused"
  let br := backend mode savePath
  let events :=
    (if hideWindow then [CaptureEvent.windowHide, CaptureEvent.sleepMs 500] else []) ++
    (CaptureEvent.backendInvoke :: br.calls.map CaptureEvent.extCall) ++
    (if hideWindow then [CaptureEvent.sleepMs 100, CaptureEvent.windowShow] else [])
  match br.err with
  | some e => (events, { success := false, error := e })
  | none => (events, { filePath := savePath, fileName := filename, success := true })

/-! ### Theorems -/

/-- The request body AnalyzeScreenshot builds once the image file has
been read: fixed model, one user message carrying the (defaulted)
prompt and the one base64 image, streaming off. -/
def builtRequest (data : List Nat) (prompt : String) : OllamaChatRequest :=
  { model := ollamaModel
    messages := [{ role := "user"
                   content := if prompt = "" then defaultPrompt else prompt
                   images := [base64Encode data] }]
    stream := false }

/-- Characterisation of the request AnalyzeScreenshot sends: none when
the file read fails, and otherwise builtRequest, whatever the HTTP
layer then does. -/
theorem analyzeScreenshot_snd (env : AnalyzeEnv) (prompt : String) :
    (analyzeScreenshot env prompt).2 =
      match env.fileContent with
      | .error _ => none
      | .ok data => some (builtRequest data prompt) := by
  obtain ⟨fc, pr, pa⟩ := env
  unfold analyzeScreenshot builtRequest
  cases fc with
  | error e => rfl
  | ok data =>
      cases pr with
      | error e => rfl
      | ok resp =>
          obtain ⟨st, br⟩ := resp
          cases br with
          | error e => rfl
          | ok body =>
              dsimp only
              by_cases hs : st = 200
              · simp only [hs, ne_eq, not_true_eq_false, if_false]
                cases pa body <;> rfl
              · simp [hs]

/-- C3: for every analyze call that reaches request construction, the
HTTP request body is exactly the chat payload with the fixed model
identifier, a single user-role message carrying the prompt text as
content and the one base64-encoded image in images, and streaming
disabled. -/
theorem analyze_sends_exact_payload (env : AnalyzeEnv) (prompt : String)
    (req : OllamaChatRequest)
    (hsent : (analyzeScreenshot env prompt).2 = some req) :
    req.model = "qwen3-vl:8b" ∧ req.stream = false ∧
      ∃ data, env.fileContent = Except.ok data ∧
        req.messages =
          [{ role := "user"
             content := if prompt = "" then defaultPrompt else prompt
             images := [base64Encode data] }] := by
  rw [analyzeScreenshot_snd] at hsent
  cases hfc : env.fileContent with
  | error e => rw [hfc] at hsent; exact absurd hsent (by simp)
  | ok data =>
      rw [hfc] at hsent
      simp only [Option.some.injEq] at hsent
      subst hsent
      exact ⟨rfl, rfl, data, rfl, rfl⟩

/-- Witness for C3 at a concrete environment whose image file holds the
byte 77 and a concrete non-empty prompt. -/
theorem analyze_sends_exact_payload_witness :
    (builtRequest [77] "hi").model = "qwen3-vl:8b" ∧
    (builtRequest [77] "hi").stream = false ∧
      ∃ data,
        (⟨Except.ok [77], Except.error "connection refused",
          fun _ => Except.error "unused"⟩ : AnalyzeEnv).fileContent = Except.ok data ∧
        (builtRequest [77] "hi").messages =
          [{ role := "user"
             content := if "hi" = "" then defaultPrompt else "hi"
             images := [base64Encode data] }] :=
  analyze_sends_exact_payload
    ⟨Except.ok [77], Except.error "connection refused", fun _ => Except.error "unused"⟩
    "hi" (builtRequest [77] "hi") (by rw [analyzeScreenshot_snd])

/-- C4: for every analyze call whose request is built, an empty prompt
is replaced by the fixed default prompt and a non-empty prompt is
passed through unchanged, so the content field of the payload is never
the empty string. -/
theorem analyze_defaults_empty_prompt (env : AnalyzeEnv) (prompt : String)
    (req : OllamaChatRequest)
    (hsent : (analyzeScreenshot env prompt).2 = some req) :
    ∀ m ∈ req.messages,
      (prompt = "" → m.content = defaultPrompt) ∧
      (prompt ≠ "" → m.content = prompt) ∧
      m.content ≠ "" := by
  rw [analyzeScreenshot_snd] at hsent
  cases hfc : env.fileContent with
  | error e => rw [hfc] at hsent; exact absurd hsent (by simp)
  | ok data =>
      rw [hfc] at hsent
      simp only [Option.some.injEq] at hsent
      subst hsent
      intro m hm
      simp only [builtRequest, List.mem_singleton] at hm
      subst hm
      by_cases hp : prompt = ""
      · refine ⟨fun _ => by simp [hp], fun h => absurd hp h, ?_⟩
        simp only [hp, if_pos rfl]
        intro h
        exact absurd h (by decide)
      · exact ⟨fun h => absurd h hp, fun _ => by simp [hp], by simp [hp]⟩

/-- Witness for C4 at a concrete environment and the empty prompt. -/
theorem analyze_defaults_empty_prompt_witness :
    (("" : String) = "" →
      ({ role := "user", content := defaultPrompt,
         images := [base64Encode [1, 2]] } : OllamaMessage).content = defaultPrompt) ∧
    (("" : String) ≠ "" →
      ({ role := "user", content := defaultPrompt,
         images := [base64Encode [1, 2]] } : OllamaMessage).content = "") ∧
    ({ role := "user", content := defaultPrompt,
       images := [base64Encode [1, 2]] } : OllamaMessage).content ≠ "" :=
  analyze_defaults_empty_prompt
    ⟨Except.ok [1, 2], Except.error "down", fun _ => Except.error "unused"⟩
    "" (builtRequest [1, 2] "") (by rw [analyzeScreenshot_snd])
    { role := "user", content := defaultPrompt, images := [base64Encode [1, 2]] }
    (by simp [builtRequest])

/-- C5: every failure of AnalyzeScreenshot is returned as a result value
with success=false and a per-class message — "Failed to read image" for
an unreadable file, "Ollama request failed" for a failed HTTP request,
the status code and raw body for a non-200 response, and "Failed to
parse response" for an unparseable body. The function is total, so no
failure escapes as an exception, and each oracle is consulted at most
once, so nothing is retried. The four messages carry pairwise distinct
fixed prefixes, so the classes are distinguishable. -/
theorem analyze_error_taxonomy (env : AnalyzeEnv) (prompt : String) :
    (∀ e, env.fileContent = Except.error e →
      (analyzeScreenshot env prompt).1 =
        { success := false, error := "Failed to read image: " ++ e }) ∧
    (∀ d e, env.fileContent = Except.ok d → env.postResult = Except.error e →
      (analyzeScreenshot env prompt).1 =
        { success := false, error := "Ollama request failed: " ++ e }) ∧
    (∀ d resp body, env.fileContent = Except.ok d → env.postResult = Except.ok resp →
      resp.bodyRead = Except.ok body → resp.status ≠ 200 →
      (analyzeScreenshot env prompt).1 =
        { success := false
          error := "Ollama returned status " ++ toString resp.status ++ ": " ++ body }) ∧
    (∀ d resp body e, env.fileContent = Except.ok d → env.postResult = Except.ok resp →
      resp.bodyRead = Except.ok body → resp.status = 200 →
      env.parse body = Except.error e →
      (analyzeScreenshot env prompt).1 =
        { success := false, error := "Failed to parse response: " ++ e }) := by
  obtain ⟨fc, pr, pa⟩ := env
  refine ⟨?_, ?_, ?_, ?_⟩
  · rintro e rfl
    rfl
  · rintro d e rfl rfl
    rfl
  · rintro d resp body rfl rfl hb hs
    obtain ⟨st, br⟩ := resp
    simp only at hb hs
    subst hb
    simp [analyzeScreenshot, hs]
  · rintro d resp body e rfl rfl hb hs hq
    obtain ⟨st, br⟩ := resp
    simp only at hb hs hq
    subst hb
    subst hs
    simp [analyzeScreenshot, hq]

/-- Witness for C5: the four failure classes evaluated at concrete
environments. -/
theorem analyze_error_taxonomy_witness :
    (analyzeScreenshot ⟨Except.error "no such file", Except.error "x",
        fun _ => Except.error "x"⟩ "p").1 =
      { success := false, error := "Failed to read image: " ++ "no such file" } ∧
    (analyzeScreenshot ⟨Except.ok [5], Except.error "timeout",
        fun _ => Except.error "x"⟩ "p").1 =
      { success := false, error := "Ollama request failed: " ++ "timeout" } ∧
    (analyzeScreenshot ⟨Except.ok [5], Except.ok ⟨500, Except.ok "oops"⟩,
        fun _ => Except.error "x"⟩ "p").1 =
      { success := false, error := "Ollama returned status " ++ toString (500 : Nat) ++ ": " ++ "oops" } ∧
    (analyzeScreenshot ⟨Except.ok [5], Except.ok ⟨200, Except.ok "junk"⟩,
        fun _ => Except.error "bad json"⟩ "p").1 =
      { success := false, error := "Failed to parse response: " ++ "bad json" } :=
  ⟨(analyze_error_taxonomy _ "p").1 "no such file" rfl,
   (analyze_error_taxonomy _ "p").2.1 [5] "timeout" rfl rfl,
   (analyze_error_taxonomy _ "p").2.2.1 [5] ⟨500, Except.ok "oops"⟩ "oops" rfl rfl rfl (by decide),
   (analyze_error_taxonomy _ "p").2.2.2 [5] ⟨200, Except.ok "junk"⟩ "junk" "bad json" rfl rfl rfl rfl rfl⟩

/-- C6: a connection failure makes CheckOllamaStatus report
available=false, modelLoaded=false with the message "Ollama is not
running" (the function is total, so nothing is raised), and an
unparseable model list leaves modelLoaded at its default false. -/
theorem checkStatus_unreachable (env : TagsEnv) :
    (∀ e, env.getResult = Except.error e →
      checkOllamaStatus env =
        { available := false, modelLoaded := false, error := some "Ollama is not running" }) ∧
    (∀ body, env.getResult = Except.ok body → env.parse body = none →
      (checkOllamaStatus env).modelLoaded = false) := by
  obtain ⟨gr, pa⟩ := env
  constructor
  · rintro e rfl
    rfl
  · rintro body rfl hp
    simp only at hp
    simp [checkOllamaStatus, hp]

/-- Witness for C6: an unreachable endpoint and an unparseable body. -/
theorem checkStatus_unreachable_witness :
    checkOllamaStatus ⟨Except.error "connection refused", fun _ => none⟩ =
      { available := false, modelLoaded := false, error := some "Ollama is not running" } ∧
    (checkOllamaStatus ⟨Except.ok "not json", fun _ => none⟩).modelLoaded = false :=
  ⟨(checkStatus_unreachable _).1 "connection refused" rfl,
   (checkStatus_unreachable _).2 "not json" rfl rfl⟩

/-- C7: when the endpoint answers and the model list parses,
modelLoaded is exactly whether some entry's name contains the substring
qwen3-vl — a substring test, not exact-name equality. -/
theorem checkStatus_model_substring (env : TagsEnv) (body : String) (tags : TagsResp)
    (h1 : env.getResult = Except.ok body) (h2 : env.parse body = some tags) :
    (checkOllamaStatus env).modelLoaded =
      tags.models.any (fun m => strContains m.name "qwen3-vl") := by
  obtain ⟨gr, pa⟩ := env
  simp only at h1 h2
  subst h1
  simp [checkOllamaStatus, h2]

/-- Witness for C7: a reachable endpoint listing qwen3-vl:8b-instruct —
a name different from qwen3-vl yet containing it — yields
modelLoaded=true. -/
theorem checkStatus_model_substring_witness :
    (checkOllamaStatus ⟨Except.ok "body", fun _ =>
        some ⟨[⟨"llama3:8b"⟩, ⟨"qwen3-vl:8b-instruct"⟩]⟩⟩).modelLoaded =
      ([(⟨"llama3:8b"⟩ : TagsModelEntry), ⟨"qwen3-vl:8b-instruct"⟩].any
        (fun m => strContains m.name "qwen3-vl")) ∧
    ("qwen3-vl:8b-instruct" : String) ≠ "qwen3-vl" ∧
    (checkOllamaStatus ⟨Except.ok "body", fun _ =>
        some ⟨[⟨"llama3:8b"⟩, ⟨"qwen3-vl:8b-instruct"⟩]⟩⟩).modelLoaded = true := by
  have h := checkStatus_model_substring
    ⟨Except.ok "body", fun _ => some ⟨[⟨"llama3:8b"⟩, ⟨"qwen3-vl:8b-instruct"⟩]⟩⟩
    "body" ⟨[⟨"llama3:8b"⟩, ⟨"qwen3-vl:8b-instruct"⟩]⟩ rfl rfl
  exact ⟨h, by decide, by rw [h]; decide⟩

/-- C2 counterexample: the validation is a plain string-prefix test, so
the sibling path /home/user/Screenshots2/evil.png — which lies outside
the directory /home/user/Screenshots — passes it, and DeleteScreenshot
removes the file and reports success, contradicting the claim that
every outside path fails with success=false and an unchanged
filesystem. -/
theorem delete_outside_path_counterexample :
    ¬ isWithinDir "/home/user/Screenshots" "/home/user/Screenshots2/evil.png" ∧
    (deleteScreenshot "/home/user/Screenshots" ["/home/user/Screenshots2/evil.png"]
        "/home/user/Screenshots2/evil.png").1.success = true ∧
    (deleteScreenshot "/home/user/Screenshots" ["/home/user/Screenshots2/evil.png"]
        "/home/user/Screenshots2/evil.png").2 = [] := by
  refine ⟨?_, by decide, by decide⟩
  decide

/-- C2 amended: for every path whose resolved absolute form does not
have the screenshot directory as a string prefix, DeleteScreenshot
returns success=false with the error "Invalid file path" and leaves
the filesystem unchanged. (The string-prefix validation admits paths
outside the directory that extend its name, such as a sibling
directory <dir>2 — the counterexample above.) -/
theorem delete_invalid_path_rejected (screenshotDir : String) (fs : List String)
    (absPath : String) (h : hasPrefixStr absPath screenshotDir = false) :
    deleteScreenshot screenshotDir fs absPath =
      ({ success := false, error := "Invalid file path" }, fs) := by
  unfold deleteScreenshot
  simp [h]

/-- Witness for the amended C2: deleting /etc/passwd fails and leaves
the filesystem untouched. -/
theorem delete_invalid_path_rejected_witness :
    deleteScreenshot "/home/user/Screenshots" ["/etc/passwd"] "/etc/passwd" =
      ({ success := false, error := "Invalid file path" }, ["/etc/passwd"]) :=
  delete_invalid_path_rejected "/home/user/Screenshots" ["/etc/passwd"] "/etc/passwd" (by decide)

/-- C10: GetScreenshotBase64 returns the empty string when the file
cannot be read, and otherwise a data URI whose MIME type is image/jpeg
exactly when the lowercased extension is .jpg or .jpeg (image/png for
every other extension), followed by the base64 encoding of the file's
bytes. -/
theorem getScreenshotBase64_spec (fc : Option (List Nat)) (filePath : String) :
    (fc = none → getScreenshotBase64 fc filePath = "") ∧
    (∀ data, fc = some data →
      ∃ mime, getScreenshotBase64 fc filePath =
          "data:" ++ mime ++ ";base64," ++ base64Encode data ∧
        (mime = "image/jpeg" ↔
          ((filepathExt filePath).toLower = ".jpg" ∨ (filepathExt filePath).toLower = ".jpeg")) ∧
        (mime = "image/jpeg" ∨ mime = "image/png")) := by
  constructor
  · rintro rfl
    rfl
  · rintro data rfl
    by_cases hj :
        (filepathExt filePath).toLower = ".jpg" ∨ (filepathExt filePath).toLower = ".jpeg"
    · refine ⟨"image/jpeg", ?_, by simp [hj], Or.inl rfl⟩
      unfold getScreenshotBase64
      rcases hj with hj | hj <;> simp [hj]
    · push_neg at hj
      refine ⟨"image/png", ?_, by simp [hj.1, hj.2], Or.inr rfl⟩
      unfold getScreenshotBase64
      simp [hj.1, hj.2]

/-- Witness for C10: an unreadable file yields the empty string, and
the bytes 77,97 of the file shot.JPG yield a jpeg data URI. -/
theorem getScreenshotBase64_spec_witness :
    ((none : Option (List Nat)) = none → getScreenshotBase64 none "shot.JPG" = "") ∧
    (∃ mime, getScreenshotBase64 (some [77, 97]) "shot.JPG" =
        "data:" ++ mime ++ ";base64," ++ base64Encode [77, 97] ∧
      (mime = "image/jpeg" ↔
        ((filepathExt "shot.JPG").toLower = ".jpg" ∨ (filepathExt "shot.JPG").toLower = ".jpeg")) ∧
      (mime = "image/jpeg" ∨ mime = "image/png")) :=
  ⟨(getScreenshotBase64_spec none "shot.JPG").1,
   (getScreenshotBase64_spec (some [77, 97]) "shot.JPG").2 [77, 97] rfl⟩

/-- C9: the screenshot listing is a permutation of exactly the
non-directory entries whose lowercased extension is .png, .jpg or
.jpeg, and it is ordered newest-first, i.e. by descending ModTime
(RFC3339 strings of one shared UTC offset, whose lexicographic order
is chronological order). -/
theorem getScreenshots_spec (screenshotDir : String) (entries : List DirEntry) :
    (getScreenshots screenshotDir entries).Perm
      ((entries.filter isScreenshotEntry).map (toScreenshotInfo screenshotDir)) ∧
    (getScreenshots screenshotDir entries).Sorted
      (fun a b => b.modTime ≤ a.modTime) := by
  constructor
  · exact List.mergeSort_perm _ _
  · have h := @List.sorted_mergeSort ScreenshotInfo
      (fun a b => decide (b.modTime ≤ a.modTime))
      (fun a b c hab hbc => by
        simp only [decide_eq_true_eq] at hab hbc ⊢
        exact le_trans hbc hab)
      (fun a b => by
        simp only [Bool.or_eq_true, decide_eq_true_eq]
        exact le_total b.modTime a.modTime)
      ((entries.filter isScreenshotEntry).map (toScreenshotInfo screenshotDir))
    unfold getScreenshots
    exact h.imp (fun hab => by simpa using hab)

/-- The event trace of TakeScreenshot, independent of the backend's
error outcome: optional hide+settle, the backend invocation with its
subprocess calls, optional short delay+show. -/
theorem takeScreenshot_fst (backend : String → String → BackendResult)
    (screenshotDir timestamp mode : String) :
    (takeScreenshot backend screenshotDir timestamp mode).1 =
      (if mode == "full" || mode == "focused"
        then [CaptureEvent.windowHide, CaptureEvent.sleepMs 500] else []) ++
      (CaptureEvent.backendInvoke ::
        (backend mode (screenshotDir ++ "/" ++
          ("screenshot_" ++ timestamp ++ "_" ++ mode ++ ".png"))).calls.map
          CaptureEvent.extCall) ++
      (if mode == "full" || mode == "focused"
        then [CaptureEvent.sleepMs 100, CaptureEvent.windowShow] else []) := by
  unfold takeScreenshot
  dsimp only
  cases (backend mode (screenshotDir ++ "/" ++
    ("screenshot_" ++ timestamp ++ "_" ++ mode ++ ".png"))).err <;> rfl

/-- C1: for a full or focused capture the window is hidden, the settle
delay elapses, the backend runs, the short delay elapses and the window
is shown again — in that exact order, whatever the backend does and
whether or not it fails; for a selection capture neither hide nor show
occurs; and in every case show happens exactly when hide happened. -/
theorem capture_hide_show_choreography (backend : String → String → BackendResult)
    (screenshotDir timestamp mode : String) :
    ((mode = "full" ∨ mode = "focused") →
      ∃ cs : List ExtCall,
        (takeScreenshot backend screenshotDir timestamp mode).1 =
          CaptureEvent.windowHide :: CaptureEvent.sleepMs 500 :: CaptureEvent.backendInvoke ::
            (cs.map CaptureEvent.extCall ++ [CaptureEvent.sleepMs 100, CaptureEvent.windowShow])) ∧
    (mode = "selection" →
      CaptureEvent.windowHide ∉ (takeScreenshot backend screenshotDir timestamp mode).1 ∧
      CaptureEvent.windowShow ∉ (takeScreenshot backend screenshotDir timestamp mode).1) ∧
    (CaptureEvent.windowHide ∈ (takeScreenshot backend screenshotDir timestamp mode).1 ↔
      CaptureEvent.windowShow ∈ (takeScreenshot backend screenshotDir timestamp mode).1) := by
  rw [takeScreenshot_fst]
  by_cases hw : (mode == "full" || mode == "focused") = true
  · rw [if_pos hw, if_pos hw]
    refine ⟨fun _ => ⟨(backend mode (screenshotDir ++ "/" ++
        ("screenshot_" ++ timestamp ++ "_" ++ mode ++ ".png"))).calls, by simp⟩,
      fun hsel => ?_, by simp⟩
    subst hsel
    exact absurd hw (by decide)
  · rw [if_neg hw, if_neg hw]
    refine ⟨fun hfp => ?_, fun _ => ⟨by simp, by simp⟩, by simp⟩
    rcases hfp with h | h <;> subst h <;> exact absurd (by decide) hw

/-- Witness for C1: a full capture whose backend fails still hides,
sleeps, invokes the backend, sleeps and shows, and a selection capture
never hides or shows; evaluated on the darwin backend with a failing
subprocess oracle. -/
theorem capture_hide_show_choreography_witness :
    (∃ cs : List ExtCall,
      (takeScreenshot (captureDarwin (fun _ => ⟨"boom", some "exit status 1"⟩))
          "/shots" "2024-01-01_120000" "full").1 =
        CaptureEvent.windowHide :: CaptureEvent.sleepMs 500 :: CaptureEvent.backendInvoke ::
          (cs.map CaptureEvent.extCall ++ [CaptureEvent.sleepMs 100, CaptureEvent.windowShow])) ∧
    (CaptureEvent.windowHide ∉ (takeScreenshot (captureDarwin (fun _ => ⟨"boom", some "exit status 1"⟩))
        "/shots" "2024-01-01_120000" "selection").1 ∧
     CaptureEvent.windowShow ∉ (takeScreenshot (captureDarwin (fun _ => ⟨"boom", some "exit status 1"⟩))
        "/shots" "2024-01-01_120000" "selection").1) :=
  ⟨(capture_hide_show_choreography (captureDarwin (fun _ => ⟨"boom", some "exit status 1"⟩))
      "/shots" "2024-01-01_120000" "full").1 (Or.inl rfl),
   (capture_hide_show_choreography (captureDarwin (fun _ => ⟨"boom", some "exit status 1"⟩))
      "/shots" "2024-01-01_120000" "selection").2.1 rfl⟩

/-- The scan of strContains accepts when the needle is a leading
segment of the scanned list. -/
theorem strContains_go_self (needle rest : List Char) :
    strContains.go (needle ++ rest) needle = true := by
  unfold strContains.go
  have h : List.isPrefixOf needle (needle ++ rest) = true :=
    List.isPrefixOf_iff_prefix.mpr (List.prefix_append needle rest)
  simp [h]

/-- The scan of strContains is preserved by prepending one character. -/
theorem strContains_go_cons (c : Char) (l needle : List Char)
    (h : strContains.go l needle = true) :
    strContains.go (c :: l) needle = true := by
  unfold strContains.go
  simp only [Bool.or_eq_true]
  right
  exact h

/-- The scan of strContains is preserved by prepending any list. -/
theorem strContains_go_append_left (pre l needle : List Char)
    (h : strContains.go l needle = true) :
    strContains.go (pre ++ l) needle = true := by
  induction pre with
  | nil => simpa using h
  | cons c cs ih => exact strContains_go_cons c (cs ++ l) needle ih

/-- The invalid-mode error message of every backend names the rejected
mode: the mode string occurs in it as a substring. -/
theorem invalidModeMsg_names_mode (mode : String) :
    strContains (invalidModeMsg mode) mode = true := by
  unfold strContains invalidModeMsg goQuote
  simp only [String.data_append, List.append_assoc]
  exact strContains_go_append_left _ _ _
    (strContains_go_append_left _ _ _ (strContains_go_self _ _))

/-- The darwin backend's default branch: no subprocess, hideWindow
false, the invalid-mode error. -/
theorem captureDarwin_invalid (ex : ExtCall → ExecOutcome) (mode savePath : String)
    (h1 : mode ≠ "full") (h2 : mode ≠ "selection") (h3 : mode ≠ "focused") :
    captureDarwin ex mode savePath = ⟨[], false, some (invalidModeMsg mode)⟩ := by
  unfold captureDarwin
  rw [if_neg h1, if_neg h2, if_neg h3]

/-- The linux backend's default branch: no subprocess, hideWindow
false, the invalid-mode error. -/
theorem captureLinux_invalid (ex : ExtCall → ExecOutcome) (mode savePath : String)
    (h1 : mode ≠ "full") (h2 : mode ≠ "selection") (h3 : mode ≠ "focused") :
    captureLinux ex mode savePath = ⟨[], false, some (invalidModeMsg mode)⟩ := by
  unfold captureLinux
  rw [if_neg h1, if_neg h2, if_neg h3]

/-- The windows backend's default branch: no subprocess, hideWindow
false, the invalid-mode error. -/
theorem captureWindows_invalid (ex : ExtCall → ExecOutcome) (mode savePath : String)
    (h1 : mode ≠ "full") (h2 : mode ≠ "selection") (h3 : mode ≠ "focused") :
    captureWindows ex mode savePath = ⟨[], false, some (invalidModeMsg mode)⟩ := by
  unfold captureWindows
  rw [if_neg (by rintro (h | h | h) <;> [exact h1 h; exact h2 h; exact h3 h])]

/-- A backend error becomes the ScreenshotResult of TakeScreenshot:
success=false carrying the backend's message. -/
theorem takeScreenshot_snd_err (backend : String → String → BackendResult)
    (screenshotDir timestamp mode e : String)
    (h : (backend mode (screenshotDir ++ "/" ++
      ("screenshot_" ++ timestamp ++ "_" ++ mode ++ ".png"))).err = some e) :
    (takeScreenshot backend screenshotDir timestamp mode).2 =
      { success := false, error := e } := by
  unfold takeScreenshot
  dsimp only
  rw [h]

/-- C8: for every mode outside full/selection/focused, each of the
three capture backends performs no subprocess invocation and returns
the descriptive error that names the invalid mode (the mode occurs in
the message as a substring), and TakeScreenshot over each backend
returns success=false with exactly that message. -/
theorem invalid_mode_rejected (ex : ExtCall → ExecOutcome)
    (mode savePath screenshotDir timestamp : String)
    (h1 : mode ≠ "full") (h2 : mode ≠ "selection") (h3 : mode ≠ "focused") :
    captureDarwin ex mode savePath = ⟨[], false, some (invalidModeMsg mode)⟩ ∧
    captureLinux ex mode savePath = ⟨[], false, some (invalidModeMsg mode)⟩ ∧
    captureWindows ex mode savePath = ⟨[], false, some (invalidModeMsg mode)⟩ ∧
    strContains (invalidModeMsg mode) mode = true ∧
    (takeScreenshot (captureDarwin ex) screenshotDir timestamp mode).2 =
      { success := false, error := invalidModeMsg mode } ∧
    (takeScreenshot (captureLinux ex) screenshotDir timestamp mode).2 =
      { success := false, error := invalidModeMsg mode } ∧
    (takeScreenshot (captureWindows ex) screenshotDir timestamp mode).2 =
      { success := false, error := invalidModeMsg mode } :=
  ⟨captureDarwin_invalid ex mode savePath h1 h2 h3,
   captureLinux_invalid ex mode savePath h1 h2 h3,
   captureWindows_invalid ex mode savePath h1 h2 h3,
   invalidModeMsg_names_mode mode,
   takeScreenshot_snd_err _ _ _ _ _ (by rw [captureDarwin_invalid ex mode _ h1 h2 h3]),
   takeScreenshot_snd_err _ _ _ _ _ (by rw [captureLinux_invalid ex mode _ h1 h2 h3]),
   takeScreenshot_snd_err _ _ _ _ _ (by rw [captureWindows_invalid ex mode _ h1 h2 h3])⟩

/-- Witness for C8 at the concrete invalid mode "window". -/
theorem invalid_mode_rejected_witness :
    captureDarwin (fun _ => ⟨"", none⟩) "window" "/shots/s.png" =
      ⟨[], false, some (invalidModeMsg "window")⟩ ∧
    captureLinux (fun _ => ⟨"", none⟩) "window" "/shots/s.png" =
      ⟨[], false, some (invalidModeMsg "window")⟩ ∧
    captureWindows (fun _ => ⟨"", none⟩) "window" "/shots/s.png" =
      ⟨[], false, some (invalidModeMsg "window")⟩ ∧
    strContains (invalidModeMsg "window") "window" = true ∧
    (takeScreenshot (captureDarwin (fun _ => ⟨"", none⟩)) "/shots" "2024-01-01_120000" "window").2 =
      { success := false, error := invalidModeMsg "window" } ∧
    (takeScreenshot (captureLinux (fun _ => ⟨"", none⟩)) "/shots" "2024-01-01_120000" "window").2 =
      { success := false, error := invalidModeMsg "window" } ∧
    (takeScreenshot (captureWindows (fun _ => ⟨"", none⟩)) "/shots" "2024-01-01_120000" "window").2 =
      { success := false, error := invalidModeMsg "window" } :=
  invalid_mode_rejected (fun _ => ⟨"", none⟩) "window" "/shots/s.png" "/shots" "2024-01-01_120000"
    (by decide) (by decide) (by decide)
